import Mathlib

/-!
Verification of the Noise web application core logic.

Shallow embedding of the classification, exposure-aggregation and audio
processing functions of the repository:

* `NoiseClassifier` (file `src/unnamed/part_004`): zone classification table,
  `classify`, `calculateSafeExposureTime`, `calculateExposureDose`,
  `calculateTimeWeightedAverage`, and the compliance block of
  `generateHealthDashboard`.
* `premium-features.js`: `calculatePercentile`, `calculateTimeWeightedExposure`,
  `calculateExposureRisk`.
* `history.js`: `calculatePercentile` (the rounding variant).
* `AudioProcessor` (file `src/unnamed/part_003`): `calculateRMS`,
  `convertRMSToDecibels`, `getCurrentDecibels`, `calibrate`.

Modelling conventions: JavaScript numbers are modelled by `ℚ` where the code
only compares and adds (classification thresholds, durations, percentiles) and
by `ℝ` where the code takes powers and logarithms (decibel conversions).  The
value `Infinity` produced by `Math.log10(0)` is modelled by `⊥ : EReal` on the
decibel conversion path, and by `⊤ : WithTop ℚ` on the classification path.
JavaScript truthiness coercions (`duration || 1`, `currentDecibels || 0`) are
modelled by explicit zero tests.
-/

namespace Noise

/-- Classification record of `NoiseClassifier.classifications`.  The nested
informational payloads of the source records (`examples`, `healthInfo`,
`immediateHealth`, `exposure`) are constant strings and booleans never read by
`classify` or by any function verified here; they are elided.  All numeric and
identifying fields are kept. -/
structure Classification where
  range : String
  minDb : ℚ
  maxDb : ℚ
  category : String
  description : String
  color : String
  riskZone : String
deriving DecidableEq

/-- Entry 0 of `this.classifications`. -/
def quietClassification : Classification :=
  { range := "quiet", minDb := 0, maxDb := 40, category := "Quiet",
    description := "Library, soft whisper", color := "#27ae60", riskZone := "green" }

/-- Entry 1 of `this.classifications`. -/
def comfortableClassification : Classification :=
  { range := "comfortable", minDb := 40, maxDb := 55, category := "Comfortable",
    description := "Quiet office, suburban area", color := "#22c55e", riskZone := "green" }

/-- Entry 2 of `this.classifications`. -/
def moderateClassification : Classification :=
  { range := "moderate", minDb := 55, maxDb := 70, category := "Moderate",
    description := "Normal conversation, busy office", color := "#3b82f6", riskZone := "yellow" }

/-- Entry 3 of `this.classifications`. -/
def loudClassification : Classification :=
  { range := "loud", minDb := 70, maxDb := 85, category := "Loud",
    description := "Heavy traffic, vacuum cleaner", color := "#f59e0b", riskZone := "orange" }

/-- Entry 4 of `this.classifications`. -/
def dangerousClassification : Classification :=
  { range := "dangerous", minDb := 85, maxDb := 100, category := "Dangerous",
    description := "Construction site, power tools", color := "#dc2626", riskZone := "red" }

/-- Entry 5 of `this.classifications`. -/
def emergencyClassification : Classification :=
  { range := "emergency", minDb := 100, maxDb := 140, category := "Emergency Level",
    description := "Rock concert, jet engine", color := "#991b1b", riskZone := "red" }

/-- The array `this.classifications` built in the `NoiseClassifier` constructor. -/
def classifications : List Classification :=
  [quietClassification, comfortableClassification, moderateClassification,
   loudClassification, dangerousClassification, emergencyClassification]

/-- Containment of a dB value in the half-open band of one classification,
the loop condition `dbLevel >= classification.minDb && dbLevel < classification.maxDb`
of `NoiseClassifier.classify`. -/
def zoneContains (c : Classification) (dbLevel : ℚ) : Prop :=
  c.minDb ≤ dbLevel ∧ dbLevel < c.maxDb

instance (c : Classification) (v : ℚ) : Decidable (zoneContains c v) :=
  inferInstanceAs (Decidable (_ ∧ _))

/-- Result of `NoiseClassifier.classify`: the matched classification record
spread together with `currentDb: Math.round(dbLevel)`. -/
structure ClassifyResult where
  zone : Classification
  currentDb : ℤ
deriving DecidableEq

/-- JavaScript `Math.round`: round half away from zero upwards, that is
`Math.round(x) = ⌊x + 1/2⌋`. -/
def jsRound (x : ℚ) : ℤ := ⌊x + 1/2⌋

/-- Loop condition of `NoiseClassifier.classify` as a boolean predicate on one
classification record. -/
def classifyPred (dbLevel : ℚ) (c : Classification) : Bool :=
  decide (zoneContains c dbLevel)

/-- Embedding of `NoiseClassifier.classify(dbLevel)`: first classification whose
half-open band contains the value; when no band matches, the comment
`Default to dangerous if above all ranges` applies and the LAST entry of the
array (`emergency`) is returned. -/
def classify (dbLevel : ℚ) : ClassifyResult :=
  match classifications.find? (classifyPred dbLevel) with
  | some c => ⟨c, jsRound dbLevel⟩
  | none => ⟨classifications.getLastD quietClassification, jsRound dbLevel⟩

/-- Embedding of `NoiseClassifier.classify` over `WithTop ℚ`, so that the
JavaScript value `Infinity` (for which every comparison `dbLevel < maxDb`
is false) can be passed as `⊤`.  Only the returned zone is modelled, as
`Math.round(Infinity)` is not a finite number. -/
def classifyTotal (dbLevel : WithTop ℚ) : Classification :=
  match classifications.find?
      (fun c => decide ((c.minDb : WithTop ℚ) ≤ dbLevel ∧ dbLevel < (c.maxDb : WithTop ℚ))) with
  | some c => c
  | none => classifications.getLastD quietClassification

/-- Embedding of `NoiseClassifier.calculateSafeExposureTime(dbLevel)`, the
OSHA-style permissible exposure table (hours). -/
def calculateSafeExposureTime (dbLevel : ℚ) : ℚ :=
  if dbLevel ≤ 85 then 8
  else if dbLevel ≤ 90 then 8
  else if dbLevel ≤ 92 then 4
  else if dbLevel ≤ 95 then 2
  else if dbLevel ≤ 97 then 1
  else if dbLevel ≤ 100 then 1/4
  else if dbLevel ≤ 105 then 17/1000
  else 0

/-- Embedding of `NoiseClassifier.calculateExposureDose(timeWeightedAverage,
durationSeconds)`. -/
def calculateExposureDose (timeWeightedAverage : ℚ) (durationSeconds : ℚ) : ℚ :=
  let durationHours := durationSeconds / 3600
  let safeHours := calculateSafeExposureTime timeWeightedAverage
  if safeHours = 0 then 100
  else min 100 (durationHours / safeHours * 100)

/-- Measurement record consumed by `NoiseClassifier.calculateTimeWeightedAverage`
and `generateHealthDashboard`: a dB value with a duration in seconds. -/
structure Measurement where
  db : ℚ
  duration : ℚ
deriving DecidableEq

/-- JavaScript truthiness coercion `measurement.duration || 1` for a numeric
duration: the value `0` is falsy and is replaced by `1`. -/
def jsDurationOr1 (duration : ℚ) : ℚ := if duration = 0 then 1 else duration

/-- Embedding of `NoiseClassifier.calculateTimeWeightedAverage(measurements)`:
an empty list returns `0`; otherwise it accumulates
`energy += 10^(db/10) * (duration || 1)` and `totalTime += (duration || 1)`,
returns `0` when `totalTime === 0`, and otherwise
`10 * log10(totalEnergyExposure / totalTime)`. -/
noncomputable def calculateTimeWeightedAverage (measurements : List Measurement) : ℝ :=
  if measurements = [] then 0
  else
    let totalEnergyExposure : ℝ :=
      (measurements.map
        (fun m => (10:ℝ) ^ ((m.db : ℝ) / 10) * ((jsDurationOr1 m.duration : ℚ) : ℝ))).sum
    let totalTime : ℚ := (measurements.map (fun m => jsDurationOr1 m.duration)).sum
    if totalTime = 0 then 0
    else 10 * Real.logb 10 (totalEnergyExposure / (totalTime : ℝ))

/-- Compliance block of the record returned by
`NoiseClassifier.generateHealthDashboard`. -/
structure ComplianceFlags where
  osha : Prop
  niosh : Prop
  who : Prop

/-- Slice of `NoiseClassifier.generateHealthDashboard(measurements, currentDb)`
covering its `compliance` output: the guard for an empty measurement list, the
statistics `timeWeightedAverage` and `averageExposure` it computes, and the
three compliance flags built from them.  The remaining dashboard fields
(personal risk, patterns, goals, reduction plan, alerts) do not feed into
`compliance` and are not modelled. -/
noncomputable def generateHealthDashboardCompliance
    (measurements : List Measurement) : Option ComplianceFlags :=
  if measurements = [] then none
  else
    let timeWeightedAverage := calculateTimeWeightedAverage measurements
    let averageExposure : ℚ := (measurements.map (fun m => m.db)).sum / measurements.length
    some { osha := timeWeightedAverage ≤ 90,
           niosh := timeWeightedAverage ≤ 85,
           who := averageExposure ≤ 55 }

end Noise

namespace Premium

/-- Measurement record of `premium-features.js` used by
`calculateTimeWeightedExposure`: a dB value with a timestamp in milliseconds. -/
structure ExtMeasurement where
  db : ℚ
  timestamp : ℚ
deriving DecidableEq

/-- Embedding of `calculateExposureRisk(db, timeSeconds)` of
`premium-features.js`. -/
noncomputable def calculateExposureRisk (db : ℝ) (timeSeconds : ℝ) : String :=
  let timeHours := timeSeconds / 3600
  if 100 ≤ db then "immediate-danger"
  else if 95 ≤ db then (if 1/4 < timeHours then "high" else "moderate")
  else if 90 ≤ db then (if 1/2 < timeHours then "high" else "moderate")
  else if 85 ≤ db then (if 8 < timeHours then "high" else "low")
  else "minimal"

/-- Record returned by `calculateTimeWeightedExposure`. -/
structure TimeWeightedExposure where
  value : ℝ
  totalTime : ℚ
  oshaCompliant : Prop
  exposureRisk : String

/-- Embedding of `calculateTimeWeightedExposure()` of `premium-features.js`:
`null` for an empty measurement list; otherwise for every consecutive pair of
measurements it accumulates `energy * timeInterval` and `timeInterval`, where
`timeInterval = (next.timestamp - current.timestamp) / 1000` seconds and
`energy = 10^(current.db/10)`, and the reported value is
`totalTime > 0 ? 10 * log10(totalEnergy / totalTime) : 0`. -/
noncomputable def calculateTimeWeightedExposure
    (extendedMeasurements : List ExtMeasurement) : Option TimeWeightedExposure :=
  if extendedMeasurements = [] then none
  else
    let pairs := extendedMeasurements.zip extendedMeasurements.tail
    let totalEnergy : ℝ :=
      (pairs.map (fun p =>
        (10:ℝ) ^ ((p.1.db : ℝ) / 10) * (((p.2.timestamp - p.1.timestamp) / 1000 : ℚ) : ℝ))).sum
    let totalTime : ℚ := (pairs.map (fun p => (p.2.timestamp - p.1.timestamp) / 1000)).sum
    let timeWeightedDb : ℝ :=
      if 0 < totalTime then 10 * Real.logb 10 (totalEnergy / (totalTime : ℝ)) else 0
    some { value := timeWeightedDb,
           totalTime := totalTime,
           oshaCompliant := timeWeightedDb < 85,
           exposureRisk := calculateExposureRisk timeWeightedDb (totalTime : ℝ) }

/-- Embedding of `calculatePercentile(values, percentile)` of
`premium-features.js`: sort ascending, take `index = (percentile/100) * (n-1)`,
return the element at `index` when `floor(index) === ceil(index)` and otherwise
interpolate linearly between the floor and ceil elements.  JavaScript numeric
sort with comparator `(a, b) => a - b` is modelled by sorting with `≤`; array
indexing is modelled by `getD` with default `0` (the claims only exercise
in-range indices). -/
def calculatePercentile (values : List ℚ) (percentile : ℚ) : ℚ :=
  let sorted := List.insertionSort (· ≤ ·) values
  let index := (percentile / 100) * ((sorted.length : ℚ) - 1)
  let lower := ⌊index⌋
  let upper := ⌈index⌉
  if lower = upper then sorted.getD lower.toNat 0
  else
    let weight := index - lower
    sorted.getD lower.toNat 0 * (1 - weight) + sorted.getD upper.toNat 0 * weight

end Premium

namespace History

/-- Embedding of `calculatePercentile(values, percentile)` of `history.js`:
returns `0` for an empty list; at an integer index returns the sorted element
there, and otherwise interpolates linearly and rounds the result to one
decimal with `Math.round(x * 10) / 10`. -/
def calculatePercentile (values : List ℚ) (percentile : ℚ) : ℚ :=
  if values = [] then 0
  else
    let sorted := List.insertionSort (· ≤ ·) values
    let index := (percentile / 100) * ((sorted.length : ℚ) - 1)
    if (⌊index⌋ : ℚ) = index then sorted.getD (⌊index⌋).toNat 0
    else
      let lower := ⌊index⌋
      let upper := ⌈index⌉
      let weight := index - lower
      (Noise.jsRound ((sorted.getD lower.toNat 0 * (1 - weight) +
        sorted.getD upper.toNat 0 * weight) * 10) : ℚ) / 10

end History

namespace Audio

/-- Embedding of `AudioProcessor.calculateRMS(timeData)`: bytes in `0..255`
are mapped to amplitudes `(byte - 128) / 128`, squared, averaged, and the
square root is taken.  Byte values are modelled as rationals; the frame is
nonempty in the source (`fftSize` is 2048). -/
noncomputable def calculateRMS (timeData : List ℚ) : ℝ :=
  Real.sqrt
    ((((timeData.map (fun b => ((b - 128) / 128) * ((b - 128) / 128))).sum : ℚ) : ℝ) /
      (timeData.length : ℝ))

/-- Embedding of `AudioProcessor.convertRMSToDecibels(rms)`: guard
`rms <= 0` returns `-Infinity` (modelled by `⊥ : EReal`), otherwise
`20 * log10(rms) + 94`. -/
noncomputable def convertRMSToDecibels (rms : ℝ) : EReal :=
  if rms ≤ 0 then ⊥
  else (((20 * Real.logb 10 rms + 94 : ℝ)) : EReal)

/-- Clamp `db = Math.max(20, Math.min(140, db))` of
`AudioProcessor.getCurrentDecibels`, applied on the extended real line so that
the `-Infinity` produced for silent frames clamps to the floor `20`.  The
result is always finite, hence returned in `ℝ`. -/
noncomputable def clampDb (db : EReal) : ℝ :=
  (max ((20:ℝ) : EReal) (min ((140:ℝ) : EReal) db)).toReal

/-- State of an `AudioProcessor` instance as far as `getCurrentDecibels` and
`calibrate` read and write it.  The fields mirror the constructor:
`isInitialized`, `isMeasuring`, the `analyser` node (presence only),
`currentDecibels` (the cached reading, initially `0`), `calibrationOffset`
(initially `0`) and `referenceLevel` (initially `94`). -/
structure AudioProcessorState where
  isInitialized : Bool
  isMeasuring : Bool
  hasAnalyser : Bool
  currentDecibels : ℝ
  calibrationOffset : ℝ
  referenceLevel : ℝ

/-- Embedding of `AudioProcessor.getCurrentDecibels()`, returning the reading
together with the updated state.  Inputs that the source reads from the
environment are passed explicitly: `intervalElapsed` is the timing test
`now - lastUpdateTime >= updateInterval` (when false the cached
`currentDecibels` is returned unchanged), and `frame` is the time-domain data
delivered by the analyser, with `none` standing for an exception inside the
`try` block, in which case the `catch` arm returns
`this.currentDecibels || 0`. -/
noncomputable def getCurrentDecibelsRun (s : AudioProcessorState)
    (intervalElapsed : Bool) (frame : Option (List ℚ)) :
    ℝ × AudioProcessorState :=
  if !s.isInitialized || !s.isMeasuring || !s.hasAnalyser then (0, s)
  else if !intervalElapsed then (s.currentDecibels, s)
  else
    match frame with
    | none => ((if s.currentDecibels = 0 then 0 else s.currentDecibels), s)
    | some timeData =>
      let rms := calculateRMS timeData
      let db := convertRMSToDecibels rms + ((s.calibrationOffset : ℝ) : EReal)
      let clamped := clampDb db
      (clamped, { s with currentDecibels := clamped })

/-- Value returned by `AudioProcessor.getCurrentDecibels()`. -/
noncomputable def getCurrentDecibels (s : AudioProcessorState)
    (intervalElapsed : Bool) (frame : Option (List ℚ)) : ℝ :=
  (getCurrentDecibelsRun s intervalElapsed frame).1

/-- Embedding of `AudioProcessor.calibrate(referenceLevel)`: throws (`none`)
unless initialized and measuring; otherwise zeroes the offset, takes one
reading through `getCurrentDecibels`, computes `newOffset = referenceLevel -
currentReading`, and stores `originalOffset + newOffset` as the new
`calibrationOffset`, also updating `referenceLevel` and returning the stored
offset.  Persistence via `saveCalibration` touches only `localStorage` and is
not modelled. -/
noncomputable def calibrate (s : AudioProcessorState)
    (intervalElapsed : Bool) (frame : Option (List ℚ)) (referenceLevel : ℝ) :
    Option (ℝ × AudioProcessorState) :=
  if !s.isInitialized || !s.isMeasuring then none
  else
    let originalOffset := s.calibrationOffset
    let run := getCurrentDecibelsRun { s with calibrationOffset := 0 } intervalElapsed frame
    let currentReading := run.1
    let newOffset := referenceLevel - currentReading
    let finalState :=
      { run.2 with calibrationOffset := originalOffset + newOffset,
                   referenceLevel := referenceLevel }
    some (finalState.calibrationOffset, finalState)

end Audio

/-!
Shared auxiliary lemmas.
-/

/-- Casting the sum of a list of rationals to the reals equals the sum of the
cast list. -/
theorem ratCast_list_sum (l : List ℚ) :
    ((l.sum : ℚ) : ℝ) = (l.map (fun q : ℚ => (q : ℝ))).sum := by
  induction l with
  | nil => simp
  | cons a t ih => simp [List.sum_cons, ih]

/-- Logarithm base 10 of a natural power of 10. -/
theorem logb_ten_pow (n : ℕ) : Real.logb 10 ((10:ℝ) ^ n) = n := by
  rw [← Real.rpow_natCast 10 n, Real.logb_rpow (by norm_num) (by norm_num)]

/-- Evaluation of `calculateTimeWeightedAverage` on a nonempty list whose
durations are all positive: the `duration || 1` coercion is the identity, the
total time is positive, and the result is the energy-weighted logarithmic
mean. -/
theorem twa_pos_durations (ms : List Noise.Measurement) (hne : ms ≠ [])
    (hpos : ∀ m ∈ ms, 0 < m.duration) :
    Noise.calculateTimeWeightedAverage ms =
      10 * Real.logb 10
        ((ms.map (fun m => (10:ℝ) ^ ((m.db : ℝ) / 10) * (m.duration : ℝ))).sum /
          ((ms.map (fun m => (m.duration : ℝ))).sum)) := by
  unfold Noise.calculateTimeWeightedAverage
  rw [if_neg hne]
  have hdur : ms.map (fun m => Noise.jsDurationOr1 m.duration) =
      ms.map (fun m => m.duration) :=
    List.map_congr_left (fun m hm => by
      unfold Noise.jsDurationOr1
      rw [if_neg (ne_of_gt (hpos m hm))])
  have hen : ms.map
        (fun m => (10:ℝ) ^ ((m.db : ℝ) / 10) * ((Noise.jsDurationOr1 m.duration : ℚ) : ℝ)) =
      ms.map (fun m => (10:ℝ) ^ ((m.db : ℝ) / 10) * (m.duration : ℝ)) :=
    List.map_congr_left (fun m hm => by
      unfold Noise.jsDurationOr1
      rw [if_neg (ne_of_gt (hpos m hm))])
  rw [hdur, hen]
  have htot : 0 < (ms.map (fun m => m.duration)).sum := by
    apply List.sum_pos
    · intro a ha
      obtain ⟨m, hm, rfl⟩ := List.mem_map.mp ha
      exact hpos m hm
    · simpa using hne
  rw [if_neg (ne_of_gt htot)]
  rw [ratCast_list_sum, List.map_map]
  rfl

/-- Bounds for the base-10 logarithm of the energy mean of one 80 dB and one
100 dB reading: it lies strictly between 9.69 and 9.71. -/
theorem logb_energy_mean_bounds :
    (969/100 : ℝ) < Real.logb 10 (((10:ℝ) ^ (8:ℕ) + (10:ℝ) ^ (10:ℕ)) / 2) ∧
    Real.logb 10 (((10:ℝ) ^ (8:ℕ) + (10:ℝ) ^ (10:ℕ)) / 2) < 971/100 := by
  have hX : (((10:ℝ) ^ (8:ℕ) + (10:ℝ) ^ (10:ℕ)) / 2) = 5050000000 := by norm_num
  rw [hX]
  constructor
  · rw [Real.lt_logb_iff_rpow_lt (by norm_num) (by norm_num)]
    by_contra hcon
    push_neg at hcon
    have hpow : (5050000000:ℝ) ^ (100:ℕ) ≤ ((10:ℝ) ^ ((969:ℝ)/100)) ^ (100:ℕ) :=
      pow_le_pow_left₀ (by norm_num) hcon 100
    rw [← Real.rpow_natCast ((10:ℝ) ^ ((969:ℝ)/100)) 100,
      ← Real.rpow_mul (by norm_num)] at hpow
    norm_num at hpow
  · rw [Real.logb_lt_iff_lt_rpow (by norm_num) (by norm_num)]
    by_contra hcon
    push_neg at hcon
    have hpow : ((10:ℝ) ^ ((971:ℝ)/100)) ^ (100:ℕ) ≤ (5050000000:ℝ) ^ (100:ℕ) :=
      pow_le_pow_left₀ (by positivity) hcon 100
    rw [← Real.rpow_natCast ((10:ℝ) ^ ((971:ℝ)/100)) 100,
      ← Real.rpow_mul (by norm_num)] at hpow
    norm_num at hpow

/-!
Claim C1.  The time-weighted average is the energy-weighted logarithmic mean.
The general formula of the claim holds for every nonempty measurement list
with positive durations; it fails when a duration is 0, because the source
coerces a falsy duration to 1 (`measurement.duration || 1`) before weighting.
-/

/-- C1 counterexample: for the measurement list `[(80 dB, 0 s), (100 dB, 2 s)]`
(positive total time 2), the source does not compute the claimed formula: the
claimed energy-weighted mean is 100 dB, while the source coerces the zero
duration to 1 and returns a value strictly below 100 dB. -/
theorem twa_zero_duration_cex :
    Noise.calculateTimeWeightedAverage [⟨80, 0⟩, ⟨100, 2⟩] ≠
      10 * Real.logb 10
        ((([(⟨80, 0⟩ : Noise.Measurement), ⟨100, 2⟩].map
            (fun m => (10:ℝ) ^ ((m.db : ℝ) / 10) * (m.duration : ℝ))).sum) /
          (([(⟨80, 0⟩ : Noise.Measurement), ⟨100, 2⟩].map
            (fun m => (m.duration : ℝ))).sum)) := by
  have h8 : (10:ℝ) ^ (((80:ℚ) : ℝ) / 10) = (10:ℝ) ^ (8:ℕ) := by
    rw [show (((80:ℚ) : ℝ) / 10) = ((8:ℕ) : ℝ) by norm_num, Real.rpow_natCast]
  have h10 : (10:ℝ) ^ (((100:ℚ) : ℝ) / 10) = (10:ℝ) ^ (10:ℕ) := by
    rw [show (((100:ℚ) : ℝ) / 10) = ((10:ℕ) : ℝ) by norm_num, Real.rpow_natCast]
  have hrhs : 10 * Real.logb 10
        ((([(⟨80, 0⟩ : Noise.Measurement), ⟨100, 2⟩].map
            (fun m => (10:ℝ) ^ ((m.db : ℝ) / 10) * (m.duration : ℝ))).sum) /
          (([(⟨80, 0⟩ : Noise.Measurement), ⟨100, 2⟩].map
            (fun m => (m.duration : ℝ))).sum)) = 100 := by
    simp only [List.map_cons, List.map_nil, List.sum_cons, List.sum_nil]
    rw [show ((⟨80, 0⟩ : Noise.Measurement).db : ℝ) = ((80:ℚ) : ℝ) from rfl,
      show ((⟨100, 2⟩ : Noise.Measurement).db : ℝ) = ((100:ℚ) : ℝ) from rfl,
      h8, h10]
    push_cast
    rw [show ((10:ℝ) ^ (8:ℕ) * 0 + ((10:ℝ) ^ (10:ℕ) * 2 + 0)) / (0 + (2 + 0)) =
        (10:ℝ) ^ (10:ℕ) by norm_num]
    rw [logb_ten_pow]
    norm_num
  have hlhs : Noise.calculateTimeWeightedAverage [⟨80, 0⟩, ⟨100, 2⟩] =
      10 * Real.logb 10 (((10:ℝ) ^ (8:ℕ) + (10:ℝ) ^ (10:ℕ) * 2) / 3) := by
    unfold Noise.calculateTimeWeightedAverage
    rw [if_neg (by simp)]
    simp only [List.map_cons, List.map_nil, List.sum_cons, List.sum_nil]
    rw [show Noise.jsDurationOr1 (⟨80, 0⟩ : Noise.Measurement).duration = 1 from rfl,
      show Noise.jsDurationOr1 (⟨100, 2⟩ : Noise.Measurement).duration = 2 from rfl]
    rw [if_neg (by norm_num)]
    rw [show ((⟨80, 0⟩ : Noise.Measurement).db : ℝ) = ((80:ℚ) : ℝ) from rfl,
      show ((⟨100, 2⟩ : Noise.Measurement).db : ℝ) = ((100:ℚ) : ℝ) from rfl,
      h8, h10]
    push_cast
    ring_nf
  have hlt : Noise.calculateTimeWeightedAverage [⟨80, 0⟩, ⟨100, 2⟩] < 100 := by
    rw [hlhs]
    have harg : ((10:ℝ) ^ (8:ℕ) + (10:ℝ) ^ (10:ℕ) * 2) / 3 < (10:ℝ) ^ (10:ℕ) := by
      norm_num
    have hpos : (0:ℝ) < ((10:ℝ) ^ (8:ℕ) + (10:ℝ) ^ (10:ℕ) * 2) / 3 := by positivity
    have hlog := Real.logb_lt_logb (b := 10) (by norm_num) hpos harg
    rw [logb_ten_pow] at hlog
    calc 10 * Real.logb 10 (((10:ℝ) ^ (8:ℕ) + (10:ℝ) ^ (10:ℕ) * 2) / 3)
        < 10 * 10 := (mul_lt_mul_left (by norm_num)).mpr hlog
      _ = 100 := by norm_num
  rw [hrhs]
  exact ne_of_lt hlt

/-- C1 amended: for every nonempty measurement list whose durations are all
positive (a duration of 0 is falsy in the source and is coerced to 1 before
weighting, so it is excluded), the time-weighted average equals
`10 * log10((sum of 10^(db/10) * duration) / (sum of duration))` — the
energy-weighted mean; in particular for readings of 80 dB and 100 dB held for
any equal positive duration the TWA equals
`10 * log10((10^8 + 10^10) / 2)`, which lies strictly between 96.9 dB and
97.1 dB (approximately 97.0, not the arithmetic mean 90 dB). -/
theorem twa_energy_weighted :
    (∀ ms : List Noise.Measurement, ms ≠ [] → (∀ m ∈ ms, 0 < m.duration) →
      Noise.calculateTimeWeightedAverage ms =
        10 * Real.logb 10
          ((ms.map (fun m => (10:ℝ) ^ ((m.db : ℝ) / 10) * (m.duration : ℝ))).sum /
            ((ms.map (fun m => (m.duration : ℝ))).sum))) ∧
    (∀ d : ℚ, 0 < d →
      Noise.calculateTimeWeightedAverage [⟨80, d⟩, ⟨100, d⟩] =
        10 * Real.logb 10 (((10:ℝ) ^ (8:ℕ) + (10:ℝ) ^ (10:ℕ)) / 2) ∧
      (969/10 : ℝ) < Noise.calculateTimeWeightedAverage [⟨80, d⟩, ⟨100, d⟩] ∧
      Noise.calculateTimeWeightedAverage [⟨80, d⟩, ⟨100, d⟩] < 971/10 ∧
      Noise.calculateTimeWeightedAverage [⟨80, d⟩, ⟨100, d⟩] ≠ 90) := by
  have h8 : (10:ℝ) ^ (((80:ℚ) : ℝ) / 10) = (10:ℝ) ^ (8:ℕ) := by
    rw [show (((80:ℚ) : ℝ) / 10) = ((8:ℕ) : ℝ) by norm_num, Real.rpow_natCast]
  have h10 : (10:ℝ) ^ (((100:ℚ) : ℝ) / 10) = (10:ℝ) ^ (10:ℕ) := by
    rw [show (((100:ℚ) : ℝ) / 10) = ((8+2:ℕ) : ℝ) by norm_num, Real.rpow_natCast]
  refine ⟨twa_pos_durations, ?_⟩
  intro d hd
  have hd0 : ((d : ℚ) : ℝ) ≠ 0 := by
    have : (0:ℝ) < ((d : ℚ) : ℝ) := by exact_mod_cast hd
    exact ne_of_gt this
  have heq : Noise.calculateTimeWeightedAverage [⟨80, d⟩, ⟨100, d⟩] =
      10 * Real.logb 10 (((10:ℝ) ^ (8:ℕ) + (10:ℝ) ^ (10:ℕ)) / 2) := by
    rw [twa_pos_durations [⟨80, d⟩, ⟨100, d⟩] (by simp)
      (by intro m hm; simp at hm; rcases hm with rfl | rfl <;> exact hd)]
    congr 2
    simp only [List.map_cons, List.map_nil, List.sum_cons, List.sum_nil]
    rw [show ((⟨80, d⟩ : Noise.Measurement).db : ℝ) = ((80:ℚ) : ℝ) from rfl,
      show ((⟨100, d⟩ : Noise.Measurement).db : ℝ) = ((100:ℚ) : ℝ) from rfl,
      show ((⟨80, d⟩ : Noise.Measurement).duration : ℝ) = ((d : ℚ) : ℝ) from rfl,
      show ((⟨100, d⟩ : Noise.Measurement).duration : ℝ) = ((d : ℚ) : ℝ) from rfl,
      h8, h10]
    field_simp
    ring
  have hlo : (969/10 : ℝ) < Noise.calculateTimeWeightedAverage [⟨80, d⟩, ⟨100, d⟩] := by
    rw [heq]
    calc (969/10 : ℝ) = 10 * (969/100) := by ring
      _ < 10 * Real.logb 10 (((10:ℝ) ^ (8:ℕ) + (10:ℝ) ^ (10:ℕ)) / 2) :=
        (mul_lt_mul_left (by norm_num)).mpr logb_energy_mean_bounds.1
  have hhi : Noise.calculateTimeWeightedAverage [⟨80, d⟩, ⟨100, d⟩] < 971/10 := by
    rw [heq]
    calc 10 * Real.logb 10 (((10:ℝ) ^ (8:ℕ) + (10:ℝ) ^ (10:ℕ)) / 2)
        < 10 * (971/100) :=
          (mul_lt_mul_left (by norm_num)).mpr logb_energy_mean_bounds.2
      _ = 971/10 := by ring
  exact ⟨heq, hlo, hhi, by intro h; rw [h] at hlo; linarith⟩

/-- C1 witness: the amended TWA formula applied to the concrete two-element
session `[(60 dB, 10 s), (90 dB, 10 s)]` and the 80/100 pair at duration 1. -/
theorem twa_energy_weighted_witness :
    (([(⟨60, 10⟩ : Noise.Measurement), ⟨90, 10⟩] : List Noise.Measurement) ≠ [] ∧
      Noise.calculateTimeWeightedAverage [⟨60, 10⟩, ⟨90, 10⟩] =
        10 * Real.logb 10
          ((([(⟨60, 10⟩ : Noise.Measurement), ⟨90, 10⟩].map
              (fun m => (10:ℝ) ^ ((m.db : ℝ) / 10) * (m.duration : ℝ))).sum) /
            (([(⟨60, 10⟩ : Noise.Measurement), ⟨90, 10⟩].map
              (fun m => (m.duration : ℝ))).sum))) ∧
    ((0:ℚ) < 1 ∧
      (969/10 : ℝ) < Noise.calculateTimeWeightedAverage [⟨80, 1⟩, ⟨100, 1⟩]) :=
  ⟨⟨by simp,
    twa_energy_weighted.1 [⟨60, 10⟩, ⟨90, 10⟩] (by simp)
      (by intro m hm; simp at hm; rcases hm with rfl | rfl <;> norm_num)⟩,
   ⟨by norm_num, (twa_energy_weighted.2 1 (by norm_num)).2.1⟩⟩

/-!
Claim C3.  The spec says values below 0 clamp to the quiet classification.
In the source, the search loop of `classify` matches no band for a negative
value (the quiet band requires `dbLevel >= 0`), so control falls through to
the fallback return, which yields the LAST array entry — the emergency
classification — not the quiet one.
-/

/-- C3: classifying the negative levels `-1`, `-1/2` and `-100` returns the
emergency (last) classification through the fallback branch, not the quiet
classification as the spec claims; no error occurs. -/
theorem classify_negative_returns_emergency :
    (Noise.classify (-1)).zone = Noise.emergencyClassification ∧
    (Noise.classify (-1/2)).zone = Noise.emergencyClassification ∧
    (Noise.classify (-100)).zone = Noise.emergencyClassification ∧
    (Noise.classify (-1)).zone ≠ Noise.quietClassification := by
  have e1 : (Noise.classify (-1)).zone = Noise.emergencyClassification := by
    norm_num [Noise.classify, Noise.classifications, Noise.classifyPred, Noise.zoneContains, List.find?,
      Noise.quietClassification, Noise.comfortableClassification, Noise.moderateClassification,
      Noise.loudClassification, Noise.dangerousClassification, Noise.emergencyClassification]
  refine ⟨e1, ?_, ?_, ?_⟩
  · norm_num [Noise.classify, Noise.classifications, Noise.classifyPred, Noise.zoneContains, List.find?,
      Noise.quietClassification, Noise.comfortableClassification, Noise.moderateClassification,
      Noise.loudClassification, Noise.dangerousClassification, Noise.emergencyClassification]
  · norm_num [Noise.classify, Noise.classifications, Noise.classifyPred, Noise.zoneContains, List.find?,
      Noise.quietClassification, Noise.comfortableClassification, Noise.moderateClassification,
      Noise.loudClassification, Noise.dangerousClassification, Noise.emergencyClassification]
  · rw [e1]
    intro h
    simp [Noise.emergencyClassification, Noise.quietClassification] at h

/-!
Claim C4.  The safe-exposure table: the claim asserts 4 hours at 90 dB, but
the source branch `if (dbLevel <= 90) return 8` yields 8 hours at 90 dB; the
4-hour tier starts strictly above 90 dB (up to 92 dB).
-/

/-- C4 counterexample: at exactly 90 dB the source returns 8 hours, not the
4 hours the claim states. -/
theorem safe_exposure_at_90_cex :
    Noise.calculateSafeExposureTime 90 = 8 ∧ (8:ℚ) ≠ 4 := by
  constructor
  · rfl
  · norm_num

/-- C4 amended: the OSHA-style table of `calculateSafeExposureTime` returns
8 hours for every level at or below 90 dB (in particular at 85 and at 90),
4 hours at 92 dB, 2 hours at 95 dB, 1 hour at 97 dB, 0.25 hours (15 minutes)
at 100 dB, 0.017 hours (about 1 minute) at 105 dB, and 0 (no safe exposure)
for every level strictly above the 105 dB ceiling. -/
theorem safe_exposure_table :
    (∀ v : ℚ, v ≤ 90 → Noise.calculateSafeExposureTime v = 8) ∧
    Noise.calculateSafeExposureTime 85 = 8 ∧
    Noise.calculateSafeExposureTime 90 = 8 ∧
    Noise.calculateSafeExposureTime 92 = 4 ∧
    Noise.calculateSafeExposureTime 95 = 2 ∧
    Noise.calculateSafeExposureTime 97 = 1 ∧
    Noise.calculateSafeExposureTime 100 = 1/4 ∧
    Noise.calculateSafeExposureTime 105 = 17/1000 ∧
    (∀ v : ℚ, 105 < v → Noise.calculateSafeExposureTime v = 0) := by
  refine ⟨?_, rfl, rfl, rfl, rfl, rfl, rfl, rfl, ?_⟩
  · intro v hv
    unfold Noise.calculateSafeExposureTime
    by_cases h85 : v ≤ 85
    · simp [h85]
    · simp [h85, hv]
  · intro v hv
    unfold Noise.calculateSafeExposureTime
    have h1 : ¬ v ≤ 85 := by linarith
    have h2 : ¬ v ≤ 90 := by linarith
    have h3 : ¬ v ≤ 92 := by linarith
    have h4 : ¬ v ≤ 95 := by linarith
    have h5 : ¬ v ≤ 97 := by linarith
    have h6 : ¬ v ≤ 100 := by linarith
    have h7 : ¬ v ≤ 105 := by linarith
    simp [h1, h2, h3, h4, h5, h6, h7]

/-- C4 witness: the amended table theorem applied at 50 dB (8 hours) and at
110 dB (no safe exposure). -/
theorem safe_exposure_table_witness :
    ((50:ℚ) ≤ 90 ∧ Noise.calculateSafeExposureTime 50 = 8) ∧
    ((105:ℚ) < 110 ∧ Noise.calculateSafeExposureTime 110 = 0) :=
  ⟨⟨by norm_num, safe_exposure_table.1 50 (by norm_num)⟩,
   ⟨by norm_num, safe_exposure_table.2.2.2.2.2.2.2.2 110 (by norm_num)⟩⟩

/-!
Claim C5.  The spec says a session with one reading, or all readings at the
same timestamp, reports an explicit InsufficientData status for the TWA.
No such status exists in either aggregator: `calculateTimeWeightedExposure`
returns the record `{value: 0, totalTime: 0, ...}` (`null` only for an empty
list), and `calculateTimeWeightedAverage` returns the dB value of the single
reading, indistinguishable from valid measurements.
-/

/-- C5: evaluating the aggregators at the degenerate inputs of the claim: one
reading gives `value = 0, totalTime = 0` (not a distinguished status), two
readings at the same timestamp likewise, only the empty list gives `null`,
and the classifier TWA of a single reading is the plain number 80. -/
theorem twa_degenerate_no_insufficient_marker :
    (Premium.calculateTimeWeightedExposure [⟨80, 1000⟩]).map
      (fun r => (r.value, r.totalTime)) = some (0, 0) ∧
    (Premium.calculateTimeWeightedExposure [⟨80, 1000⟩, ⟨90, 1000⟩]).map
      (fun r => (r.value, r.totalTime)) = some (0, 0) ∧
    Premium.calculateTimeWeightedExposure [] = none ∧
    Noise.calculateTimeWeightedAverage [⟨80, 1⟩] = 80 := by
  refine ⟨?_, ?_, ?_, ?_⟩
  · unfold Premium.calculateTimeWeightedExposure
    rw [if_neg (by simp)]
    norm_num
  · unfold Premium.calculateTimeWeightedExposure
    rw [if_neg (by simp)]
    norm_num
  · unfold Premium.calculateTimeWeightedExposure
    rw [if_pos rfl]
  · rw [twa_pos_durations [⟨80, 1⟩] (by simp)
      (by intro m hm; simp at hm; rw [hm]; norm_num)]
    simp only [List.map_cons, List.map_nil, List.sum_cons, List.sum_nil]
    rw [show ((⟨80, 1⟩ : Noise.Measurement).db : ℝ) = ((80:ℚ) : ℝ) from rfl,
      show ((⟨80, 1⟩ : Noise.Measurement).duration : ℝ) = ((1:ℚ) : ℝ) from rfl]
    rw [show (10:ℝ) ^ (((80:ℚ) : ℝ) / 10) = (10:ℝ) ^ (8:ℕ) by
      rw [show (((80:ℚ) : ℝ) / 10) = ((8:ℕ) : ℝ) by norm_num, Real.rpow_natCast]]
    push_cast
    rw [show ((10:ℝ) ^ (8:ℕ) * 1 + 0) / (1 + 0) = (10:ℝ) ^ (8:ℕ) by norm_num]
    rw [logb_ten_pow]
    norm_num

/-!
Claim C6.  Compliance flags of the health dashboard.
-/

/-- C6: for every nonempty measurement list, the dashboard compliance block
exists and sets `osha` exactly when the (unrounded) time-weighted average is
at most 90 dB, `niosh` exactly when it is at most 85 dB, and `who` exactly
when the simple arithmetic mean of the dB values is at most 55 — three
independent thresholds over two different statistics. -/
theorem dashboard_compliance_flags :
    ∀ ms : List Noise.Measurement, ms ≠ [] →
      ∃ c : Noise.ComplianceFlags,
        Noise.generateHealthDashboardCompliance ms = some c ∧
        (c.osha ↔ Noise.calculateTimeWeightedAverage ms ≤ 90) ∧
        (c.niosh ↔ Noise.calculateTimeWeightedAverage ms ≤ 85) ∧
        (c.who ↔ (ms.map (fun m => m.db)).sum / (ms.length : ℚ) ≤ 55) := by
  intro ms hne
  refine ⟨{ osha := Noise.calculateTimeWeightedAverage ms ≤ 90,
            niosh := Noise.calculateTimeWeightedAverage ms ≤ 85,
            who := (ms.map (fun m => m.db)).sum / (ms.length : ℚ) ≤ 55 }, ?_, ?_, ?_, ?_⟩
  · unfold Noise.generateHealthDashboardCompliance
    rw [if_neg hne]
  · exact Iff.rfl
  · exact Iff.rfl
  · exact Iff.rfl

/-- C6 witness: the compliance theorem applied to the one-element session at
50 dB for 1 second. -/
theorem dashboard_compliance_flags_witness :
    ([(⟨50, 1⟩ : Noise.Measurement)] ≠ []) ∧
    (∃ c : Noise.ComplianceFlags,
      Noise.generateHealthDashboardCompliance [⟨50, 1⟩] = some c ∧
      (c.osha ↔ Noise.calculateTimeWeightedAverage [⟨50, 1⟩] ≤ 90) ∧
      (c.niosh ↔ Noise.calculateTimeWeightedAverage [⟨50, 1⟩] ≤ 85) ∧
      (c.who ↔ (([(⟨50, 1⟩ : Noise.Measurement)].map (fun m => m.db)).sum /
        (([(⟨50, 1⟩ : Noise.Measurement)].length : ℚ))) ≤ 55)) :=
  ⟨by simp, dashboard_compliance_flags [⟨50, 1⟩] (by simp)⟩

/-!
Claim C8.  Percentile boundary correctness for both implementations.
-/

/-- C8: both percentile implementations sort and interpolate at index
`p/100 * (n-1)`: on `[10,20,30,40,50]` the 50th percentile is 30, the 0th is
10 and the 100th is 50; on the single-element list `[42]` every percentile
(any rational `p`) returns 42 with no indexing error. -/
theorem percentile_boundary_values :
    Premium.calculatePercentile [10, 20, 30, 40, 50] 50 = 30 ∧
    Premium.calculatePercentile [10, 20, 30, 40, 50] 0 = 10 ∧
    Premium.calculatePercentile [10, 20, 30, 40, 50] 100 = 50 ∧
    (∀ p : ℚ, Premium.calculatePercentile [42] p = 42) ∧
    History.calculatePercentile [10, 20, 30, 40, 50] 50 = 30 ∧
    History.calculatePercentile [10, 20, 30, 40, 50] 0 = 10 ∧
    History.calculatePercentile [10, 20, 30, 40, 50] 100 = 50 ∧
    (∀ p : ℚ, History.calculatePercentile [42] p = 42) := by
  refine ⟨?_, ?_, ?_, ?_, ?_, ?_, ?_, ?_⟩
  · norm_num [Premium.calculatePercentile, List.insertionSort, List.orderedInsert] <;> decide
  · norm_num [Premium.calculatePercentile, List.insertionSort, List.orderedInsert] <;> decide
  · norm_num [Premium.calculatePercentile, List.insertionSort, List.orderedInsert] <;> decide
  · intro p
    simp [Premium.calculatePercentile]
  · norm_num [History.calculatePercentile, List.insertionSort, List.orderedInsert,
      Noise.jsRound] <;> decide
  · norm_num [History.calculatePercentile, List.insertionSort, List.orderedInsert,
      Noise.jsRound] <;> decide
  · norm_num [History.calculatePercentile, List.insertionSort, List.orderedInsert,
      Noise.jsRound] <;> decide
  · intro p
    simp [History.calculatePercentile]

/-!
Auxiliary lemmas about the audio read path, shared by the calibration and
silence claims.
-/

/-- Clamping a finite decibel value already inside the 20 to 140 range is the
identity. -/
theorem clampDb_coe_of_mem (x : ℝ) (h1 : (20:ℝ) ≤ x) (h2 : x ≤ 140) :
    Audio.clampDb ((x : ℝ) : EReal) = x := by
  unfold Audio.clampDb
  rw [min_eq_right (EReal.coe_le_coe_iff.mpr h2), max_eq_right (EReal.coe_le_coe_iff.mpr h1)]
  exact EReal.toReal_coe x

/-- Clamping the pre-clamp negative infinity yields the 20 dB floor. -/
theorem clampDb_bot : Audio.clampDb ⊥ = 20 := by
  unfold Audio.clampDb
  rw [min_eq_right bot_le, max_eq_left bot_le]
  exact EReal.toReal_coe 20

/-- Evaluation of a fresh (interval elapsed, frame delivered) read on an
initialized, measuring processor with an analyser. -/
theorem getCurrentDecibelsRun_active (s : Audio.AudioProcessorState) (data : List ℚ)
    (h1 : s.isInitialized = true) (h2 : s.isMeasuring = true) (h3 : s.hasAnalyser = true) :
    Audio.getCurrentDecibelsRun s true (some data) =
      (Audio.clampDb (Audio.convertRMSToDecibels (Audio.calculateRMS data) +
        ((s.calibrationOffset : ℝ) : EReal)),
       { s with currentDecibels :=
          Audio.clampDb (Audio.convertRMSToDecibels (Audio.calculateRMS data) +
            ((s.calibrationOffset : ℝ) : EReal)) }) := by
  unfold Audio.getCurrentDecibelsRun
  simp [h1, h2, h3]

/-- RMS of a frame whose every byte is the zero-amplitude midpoint 128. -/
theorem calculateRMS_midpoint (n : ℕ) : Audio.calculateRMS (List.replicate n 128) = 0 := by
  unfold Audio.calculateRMS
  have hmap : (List.replicate n (128:ℚ)).map
      (fun b => ((b - 128) / 128) * ((b - 128) / 128)) = List.replicate n 0 := by
    rw [List.map_replicate]
    norm_num
  rw [hmap, List.sum_replicate]
  simp

/-!
Auxiliary evaluation lemmas for `classify`, one per band, plus the fallback
branch for values at or above the top boundary.
-/

/-- Values in the quiet band. -/
theorem classify_in_quiet (v : ℚ) (h0 : 0 ≤ v) (h1 : v < 40) :
    Noise.classify v = ⟨Noise.quietClassification, Noise.jsRound v⟩ := by
  have p1 : Noise.classifyPred v Noise.quietClassification = true := by
    simp [Noise.classifyPred, Noise.zoneContains, Noise.quietClassification]
    exact ⟨h0, h1⟩
  unfold Noise.classify Noise.classifications
  rw [List.find?_cons_of_pos _ p1]

/-- Values in the comfortable band. -/
theorem classify_in_comfortable (v : ℚ) (h0 : 40 ≤ v) (h1 : v < 55) :
    Noise.classify v = ⟨Noise.comfortableClassification, Noise.jsRound v⟩ := by
  have q1 : ¬ Noise.classifyPred v Noise.quietClassification = true := by
    simp [Noise.classifyPred, Noise.zoneContains, Noise.quietClassification]
    intro _
    linarith
  have p2 : Noise.classifyPred v Noise.comfortableClassification = true := by
    simp [Noise.classifyPred, Noise.zoneContains, Noise.comfortableClassification]
    exact ⟨h0, h1⟩
  unfold Noise.classify Noise.classifications
  rw [List.find?_cons_of_neg _ q1, List.find?_cons_of_pos _ p2]

/-- Values in the moderate band. -/
theorem classify_in_moderate (v : ℚ) (h0 : 55 ≤ v) (h1 : v < 70) :
    Noise.classify v = ⟨Noise.moderateClassification, Noise.jsRound v⟩ := by
  have q1 : ¬ Noise.classifyPred v Noise.quietClassification = true := by
    simp [Noise.classifyPred, Noise.zoneContains, Noise.quietClassification]
    intro _
    linarith
  have q2 : ¬ Noise.classifyPred v Noise.comfortableClassification = true := by
    simp [Noise.classifyPred, Noise.zoneContains, Noise.comfortableClassification]
    intro _
    linarith
  have p3 : Noise.classifyPred v Noise.moderateClassification = true := by
    simp [Noise.classifyPred, Noise.zoneContains, Noise.moderateClassification]
    exact ⟨h0, h1⟩
  unfold Noise.classify Noise.classifications
  rw [List.find?_cons_of_neg _ q1, List.find?_cons_of_neg _ q2,
    List.find?_cons_of_pos _ p3]

/-- Values in the loud band. -/
theorem classify_in_loud (v : ℚ) (h0 : 70 ≤ v) (h1 : v < 85) :
    Noise.classify v = ⟨Noise.loudClassification, Noise.jsRound v⟩ := by
  have q1 : ¬ Noise.classifyPred v Noise.quietClassification = true := by
    simp [Noise.classifyPred, Noise.zoneContains, Noise.quietClassification]
    intro _
    linarith
  have q2 : ¬ Noise.classifyPred v Noise.comfortableClassification = true := by
    simp [Noise.classifyPred, Noise.zoneContains, Noise.comfortableClassification]
    intro _
    linarith
  have q3 : ¬ Noise.classifyPred v Noise.moderateClassification = true := by
    simp [Noise.classifyPred, Noise.zoneContains, Noise.moderateClassification]
    intro _
    linarith
  have p4 : Noise.classifyPred v Noise.loudClassification = true := by
    simp [Noise.classifyPred, Noise.zoneContains, Noise.loudClassification]
    exact ⟨h0, h1⟩
  unfold Noise.classify Noise.classifications
  rw [List.find?_cons_of_neg _ q1, List.find?_cons_of_neg _ q2,
    List.find?_cons_of_neg _ q3, List.find?_cons_of_pos _ p4]

/-- Values in the dangerous band. -/
theorem classify_in_dangerous (v : ℚ) (h0 : 85 ≤ v) (h1 : v < 100) :
    Noise.classify v = ⟨Noise.dangerousClassification, Noise.jsRound v⟩ := by
  have q1 : ¬ Noise.classifyPred v Noise.quietClassification = true := by
    simp [Noise.classifyPred, Noise.zoneContains, Noise.quietClassification]
    intro _
    linarith
  have q2 : ¬ Noise.classifyPred v Noise.comfortableClassification = true := by
    simp [Noise.classifyPred, Noise.zoneContains, Noise.comfortableClassification]
    intro _
    linarith
  have q3 : ¬ Noise.classifyPred v Noise.moderateClassification = true := by
    simp [Noise.classifyPred, Noise.zoneContains, Noise.moderateClassification]
    intro _
    linarith
  have q4 : ¬ Noise.classifyPred v Noise.loudClassification = true := by
    simp [Noise.classifyPred, Noise.zoneContains, Noise.loudClassification]
    intro _
    linarith
  have p5 : Noise.classifyPred v Noise.dangerousClassification = true := by
    simp [Noise.classifyPred, Noise.zoneContains, Noise.dangerousClassification]
    exact ⟨h0, h1⟩
  unfold Noise.classify Noise.classifications
  rw [List.find?_cons_of_neg _ q1, List.find?_cons_of_neg _ q2,
    List.find?_cons_of_neg _ q3, List.find?_cons_of_neg _ q4,
    List.find?_cons_of_pos _ p5]

/-- Values in the emergency band. -/
theorem classify_in_emergency (v : ℚ) (h0 : 100 ≤ v) (h1 : v < 140) :
    Noise.classify v = ⟨Noise.emergencyClassification, Noise.jsRound v⟩ := by
  have q1 : ¬ Noise.classifyPred v Noise.quietClassification = true := by
    simp [Noise.classifyPred, Noise.zoneContains, Noise.quietClassification]
    intro _
    linarith
  have q2 : ¬ Noise.classifyPred v Noise.comfortableClassification = true := by
    simp [Noise.classifyPred, Noise.zoneContains, Noise.comfortableClassification]
    intro _
    linarith
  have q3 : ¬ Noise.classifyPred v Noise.moderateClassification = true := by
    simp [Noise.classifyPred, Noise.zoneContains, Noise.moderateClassification]
    intro _
    linarith
  have q4 : ¬ Noise.classifyPred v Noise.loudClassification = true := by
    simp [Noise.classifyPred, Noise.zoneContains, Noise.loudClassification]
    intro _
    linarith
  have q5 : ¬ Noise.classifyPred v Noise.dangerousClassification = true := by
    simp [Noise.classifyPred, Noise.zoneContains, Noise.dangerousClassification]
    intro _
    linarith
  have p6 : Noise.classifyPred v Noise.emergencyClassification = true := by
    simp [Noise.classifyPred, Noise.zoneContains, Noise.emergencyClassification]
    exact ⟨h0, h1⟩
  unfold Noise.classify Noise.classifications
  rw [List.find?_cons_of_neg _ q1, List.find?_cons_of_neg _ q2,
    List.find?_cons_of_neg _ q3, List.find?_cons_of_neg _ q4,
    List.find?_cons_of_neg _ q5, List.find?_cons_of_pos _ p6]

/-- Values at or above the emergency maximum hit the fallback branch and
still return the emergency classification. -/
theorem classify_above_top (v : ℚ) (h0 : 140 ≤ v) :
    Noise.classify v = ⟨Noise.emergencyClassification, Noise.jsRound v⟩ := by
  have q1 : ¬ Noise.classifyPred v Noise.quietClassification = true := by
    simp [Noise.classifyPred, Noise.zoneContains, Noise.quietClassification]
    intro _
    linarith
  have q2 : ¬ Noise.classifyPred v Noise.comfortableClassification = true := by
    simp [Noise.classifyPred, Noise.zoneContains, Noise.comfortableClassification]
    intro _
    linarith
  have q3 : ¬ Noise.classifyPred v Noise.moderateClassification = true := by
    simp [Noise.classifyPred, Noise.zoneContains, Noise.moderateClassification]
    intro _
    linarith
  have q4 : ¬ Noise.classifyPred v Noise.loudClassification = true := by
    simp [Noise.classifyPred, Noise.zoneContains, Noise.loudClassification]
    intro _
    linarith
  have q5 : ¬ Noise.classifyPred v Noise.dangerousClassification = true := by
    simp [Noise.classifyPred, Noise.zoneContains, Noise.dangerousClassification]
    intro _
    linarith
  have q6 : ¬ Noise.classifyPred v Noise.emergencyClassification = true := by
    simp [Noise.classifyPred, Noise.zoneContains, Noise.emergencyClassification]
    intro _
    linarith
  unfold Noise.classify Noise.classifications
  rw [List.find?_cons_of_neg _ q1, List.find?_cons_of_neg _ q2,
    List.find?_cons_of_neg _ q3, List.find?_cons_of_neg _ q4,
    List.find?_cons_of_neg _ q5, List.find?_cons_of_neg _ q6, List.find?_nil]
  rfl

/-- Uniqueness of the containing band: two classifications from the table
whose half-open ranges both contain the same value are equal. -/
theorem zoneContains_unique (v : ℚ) (c₁ c₂ : Noise.Classification)
    (hm₁ : c₁ ∈ Noise.classifications) (hz₁ : Noise.zoneContains c₁ v)
    (hm₂ : c₂ ∈ Noise.classifications) (hz₂ : Noise.zoneContains c₂ v) :
    c₁ = c₂ := by
  unfold Noise.zoneContains at hz₁ hz₂
  simp [Noise.classifications] at hm₁ hm₂
  rcases hm₁ with rfl | rfl | rfl | rfl | rfl | rfl <;>
    rcases hm₂ with rfl | rfl | rfl | rfl | rfl | rfl <;>
    first
    | rfl
    | (exfalso
       simp [Noise.quietClassification, Noise.comfortableClassification,
         Noise.moderateClassification, Noise.loudClassification,
         Noise.dangerousClassification, Noise.emergencyClassification] at hz₁ hz₂
       linarith [hz₁.1, hz₁.2, hz₂.1, hz₂.2])

/-!
Claim C2.  Zone partition totality.
-/

/-- C2: the six band ranges are contiguous half-open intervals (each maximum
equals the next minimum) with no overlaps: every value in `[0, 140)` lies in
exactly one band and `classify` returns that band; every finite value at or
above 100 — including everything at or above the table top 140, through the
fallback branch — classifies as the emergency band; and the value `+Infinity`
(`⊤`) also classifies as the emergency band.  In particular `classify` is
total for all `v ≥ 0` and for `+Infinity`, and never errors. -/
theorem zone_partition_total :
    List.Chain' (fun a b => a.maxDb = b.minDb) Noise.classifications ∧
    (∀ v : ℚ, 0 ≤ v → v < 140 →
      ∃! c : Noise.Classification, c ∈ Noise.classifications ∧ Noise.zoneContains c v) ∧
    (∀ v : ℚ, 0 ≤ v → v < 140 →
      (Noise.classify v).zone ∈ Noise.classifications ∧
        Noise.zoneContains (Noise.classify v).zone v) ∧
    (∀ v : ℚ, 100 ≤ v → (Noise.classify v).zone = Noise.emergencyClassification) ∧
    Noise.classifyTotal ⊤ = Noise.emergencyClassification := by
  have hbands : ∀ v : ℚ, 0 ≤ v → v < 140 →
      ∃ c : Noise.Classification, c ∈ Noise.classifications ∧ Noise.zoneContains c v ∧
        Noise.classify v = ⟨c, Noise.jsRound v⟩ := by
    intro v h0 h140
    rcases lt_or_le v 40 with h | h40
    · exact ⟨Noise.quietClassification, by simp [Noise.classifications],
        ⟨h0, h⟩, classify_in_quiet v h0 h⟩
    rcases lt_or_le v 55 with h | h55
    · exact ⟨Noise.comfortableClassification, by simp [Noise.classifications],
        ⟨h40, h⟩, classify_in_comfortable v h40 h⟩
    rcases lt_or_le v 70 with h | h70
    · exact ⟨Noise.moderateClassification, by simp [Noise.classifications],
        ⟨h55, h⟩, classify_in_moderate v h55 h⟩
    rcases lt_or_le v 85 with h | h85
    · exact ⟨Noise.loudClassification, by simp [Noise.classifications],
        ⟨h70, h⟩, classify_in_loud v h70 h⟩
    rcases lt_or_le v 100 with h | h100
    · exact ⟨Noise.dangerousClassification, by simp [Noise.classifications],
        ⟨h85, h⟩, classify_in_dangerous v h85 h⟩
    · exact ⟨Noise.emergencyClassification, by simp [Noise.classifications],
        ⟨h100, h140⟩, classify_in_emergency v h100 h140⟩
  refine ⟨?_, ?_, ?_, ?_, ?_⟩
  · simp [Noise.classifications, List.chain'_cons, Noise.quietClassification,
      Noise.comfortableClassification, Noise.moderateClassification,
      Noise.loudClassification, Noise.dangerousClassification,
      Noise.emergencyClassification]
  · intro v h0 h140
    obtain ⟨c, hm, hz, _⟩ := hbands v h0 h140
    exact ⟨c, ⟨hm, hz⟩, fun c' hc' => zoneContains_unique v c' c hc'.1 hc'.2 hm hz⟩
  · intro v h0 h140
    obtain ⟨c, hm, hz, he⟩ := hbands v h0 h140
    rw [he]
    exact ⟨hm, hz⟩
  · intro v h100
    rcases lt_or_le v 140 with h | h140
    · rw [classify_in_emergency v h100 h]
    · rw [classify_above_top v h140]
  · rfl

/-- C2 witness: the partition theorem applied at the concrete level 50, which
lies in exactly one band (comfortable), and at 150, which classifies as
emergency through the fallback. -/
theorem zone_partition_total_witness :
    ((0:ℚ) ≤ 50 ∧ (50:ℚ) < 140 ∧
      ∃! c : Noise.Classification, c ∈ Noise.classifications ∧ Noise.zoneContains c 50) ∧
    ((100:ℚ) ≤ 150 ∧ (Noise.classify 150).zone = Noise.emergencyClassification) :=
  ⟨⟨by norm_num, by norm_num,
      zone_partition_total.2.1 50 (by norm_num) (by norm_num)⟩,
   ⟨by norm_num, zone_partition_total.2.2.2.1 150 (by norm_num)⟩⟩

/-!
Claim C9.  Silence maps deterministically through RMS 0 and a pre-clamp
negative infinity to the 20 dB floor.
-/

/-- C9: for a nonempty frame with every sample at the zero-amplitude midpoint
128, the RMS is 0, the RMS-to-decibel conversion yields negative infinity
before clamping, and `getCurrentDecibels` on a measuring processor returns the
20 dB floor, for every calibration offset and cached value — never an error
value. -/
theorem silence_reads_floor (n : ℕ) (hn : 0 < n) (cached offset ref : ℝ) :
    Audio.calculateRMS (List.replicate n 128) = 0 ∧
    Audio.convertRMSToDecibels 0 = ⊥ ∧
    Audio.getCurrentDecibels ⟨true, true, true, cached, offset, ref⟩ true
      (some (List.replicate n 128)) = 20 := by
  have hconv : Audio.convertRMSToDecibels 0 = ⊥ := by
    unfold Audio.convertRMSToDecibels
    simp
  refine ⟨calculateRMS_midpoint n, hconv, ?_⟩
  unfold Audio.getCurrentDecibels
  rw [getCurrentDecibelsRun_active _ _ rfl rfl rfl]
  rw [calculateRMS_midpoint n, hconv, EReal.bot_add]
  exact clampDb_bot

/-- C9 witness: the silence theorem applied to a concrete 4-sample frame with
zero offset and zero cache. -/
theorem silence_reads_floor_witness :
    0 < 4 ∧
    Audio.getCurrentDecibels ⟨true, true, true, 0, 0, 94⟩ true
      (some (List.replicate 4 128)) = 20 :=
  ⟨by norm_num, (silence_reads_floor 4 (by norm_num) 0 0 94).2.2⟩

/-!
Claim C7.  Calibration.  The source stores `originalOffset + (referenceLevel -
uncalibratedReading)`, not `referenceLevel - uncalibratedReading`: the
uncalibrated reading is taken with the offset zeroed, so adding the original
offset back overshoots whenever the prior offset is nonzero.  The claimed
identity and round trip hold exactly when the prior offset is 0, the fresh
pre-clamp uncalibrated level is finite and inside the 20 to 140 clamp range,
the reference is inside that range, and both reads are fresh (the inter-update
gate has elapsed).
-/

/-- C7 counterexample: on a measuring processor with prior offset 5 and a
silent steady signal, whose uncalibrated reading is x = 20, calling
`calibrate(94)` stores offset 79 = 5 + (94 - 20), not y - x = 74, and the very
next fresh reading of the same signal is 20, not 94. -/
theorem calibrate_offset_cex :
    Audio.getCurrentDecibels ⟨true, true, true, 0, 0, 94⟩ true
      (some (List.replicate 4 128)) = 20 ∧
    (Audio.calibrate ⟨true, true, true, 0, 5, 94⟩ true
      (some (List.replicate 4 128)) 94).map Prod.fst = some 79 ∧
    (79:ℝ) ≠ 94 - 20 ∧
    (Audio.calibrate ⟨true, true, true, 0, 5, 94⟩ true
      (some (List.replicate 4 128)) 94).map
        (fun r => Audio.getCurrentDecibels r.2 true (some (List.replicate 4 128))) =
      some 20 ∧
    (20:ℝ) ≠ 94 := by
  have hconv : Audio.convertRMSToDecibels 0 = ⊥ := by
    unfold Audio.convertRMSToDecibels
    simp
  have hsil : ∀ c o r : ℝ, Audio.getCurrentDecibels ⟨true, true, true, c, o, r⟩ true
      (some (List.replicate 4 128)) = 20 := by
    intro c o r
    unfold Audio.getCurrentDecibels
    rw [getCurrentDecibelsRun_active _ _ rfl rfl rfl]
    rw [calculateRMS_midpoint 4, hconv, EReal.bot_add]
    exact clampDb_bot
  have hrun : Audio.getCurrentDecibelsRun
      (⟨true, true, true, 0, 0, 94⟩ : Audio.AudioProcessorState) true
      (some (List.replicate 4 128)) = (20, ⟨true, true, true, 20, 0, 94⟩) := by
    rw [getCurrentDecibelsRun_active _ _ rfl rfl rfl]
    rw [calculateRMS_midpoint 4, hconv, EReal.bot_add, clampDb_bot]
  have hcal : Audio.calibrate ⟨true, true, true, 0, 5, 94⟩ true
      (some (List.replicate 4 128)) 94 =
      some (5 + (94 - 20), ⟨true, true, true, 20, 5 + (94 - 20), 94⟩) := by
    unfold Audio.calibrate
    rw [show ({ (⟨true, true, true, 0, 5, 94⟩ : Audio.AudioProcessorState) with
        calibrationOffset := 0 } : Audio.AudioProcessorState) =
        ⟨true, true, true, 0, 0, 94⟩ from rfl]
    rw [hrun]
    rfl
  refine ⟨hsil 0 0 94, ?_, by norm_num, ?_, by norm_num⟩
  · rw [hcal]
    show some (5 + (94 - 20) : ℝ) = some 79
    norm_num
  · rw [hcal]
    show some (Audio.getCurrentDecibels ⟨true, true, true, 20, 5 + (94 - 20), 94⟩ true
      (some (List.replicate 4 128))) = some 20
    rw [hsil]

/-- C7 amended: the stored offset after `calibrate(y)` equals
`originalOffset + (y - x)` where x is the reading taken with the offset
zeroed; in the special case of a zero prior offset, a finite pre-clamp
uncalibrated level d inside the clamp range, a reference y inside the clamp
range, and fresh reads, the stored offset is exactly `y - x = y - d` and the
very next reading of the same signal equals y. -/
theorem calibrate_offset_roundtrip :
    (∀ (s : Audio.AudioProcessorState) (data : List ℚ) (y : ℝ),
      s.isInitialized = true → s.isMeasuring = true →
      (Audio.calibrate s true (some data) y).map Prod.fst =
        some (s.calibrationOffset +
          (y - Audio.getCurrentDecibels { s with calibrationOffset := 0 }
            true (some data)))) ∧
    (∀ (s : Audio.AudioProcessorState) (data : List ℚ) (y d : ℝ),
      s.isInitialized = true → s.isMeasuring = true → s.hasAnalyser = true →
      s.calibrationOffset = 0 →
      Audio.convertRMSToDecibels (Audio.calculateRMS data) = ((d : ℝ) : EReal) →
      (20:ℝ) ≤ d → d ≤ 140 → (20:ℝ) ≤ y → y ≤ 140 →
      Audio.getCurrentDecibels { s with calibrationOffset := 0 } true (some data) = d ∧
      ∃ s₂ : Audio.AudioProcessorState,
        Audio.calibrate s true (some data) y = some (y - d, s₂) ∧
        s₂.calibrationOffset = y - d ∧
        Audio.getCurrentDecibels s₂ true (some data) = y) := by
  constructor
  · intro s data y h1 h2
    unfold Audio.calibrate Audio.getCurrentDecibels
    rw [h1, h2]
    rfl
  · intro s data y d h1 h2 h3 hoff hconv hd1 hd2 hy1 hy2
    have ht1 : ({ s with calibrationOffset := 0 } :
        Audio.AudioProcessorState).isInitialized = true := h1
    have ht2 : ({ s with calibrationOffset := 0 } :
        Audio.AudioProcessorState).isMeasuring = true := h2
    have ht3 : ({ s with calibrationOffset := 0 } :
        Audio.AudioProcessorState).hasAnalyser = true := h3
    have ht0 : (((({ s with calibrationOffset := 0 } :
        Audio.AudioProcessorState).calibrationOffset : ℝ)) : EReal) = ((0:ℝ) : EReal) := rfl
    have hrun : Audio.getCurrentDecibelsRun { s with calibrationOffset := 0 }
        true (some data) =
        (d, { s with calibrationOffset := 0, currentDecibels := d }) := by
      rw [getCurrentDecibelsRun_active _ data ht1 ht2 ht3]
      rw [hconv, ht0, ← EReal.coe_add, add_zero, clampDb_coe_of_mem d hd1 hd2]
    have hx : Audio.getCurrentDecibels { s with calibrationOffset := 0 }
        true (some data) = d := by
      unfold Audio.getCurrentDecibels
      rw [hrun]
    refine ⟨hx, ?_⟩
    have hu1 : ({ s with calibrationOffset := y - d, currentDecibels := d, referenceLevel := y } : Audio.AudioProcessorState).isInitialized = true := h1
    have hu2 : ({ s with calibrationOffset := y - d, currentDecibels := d, referenceLevel := y } : Audio.AudioProcessorState).isMeasuring = true := h2
    have hu3 : ({ s with calibrationOffset := y - d, currentDecibels := d, referenceLevel := y } : Audio.AudioProcessorState).hasAnalyser = true := h3
    have hu0 : (((({ s with calibrationOffset := y - d, currentDecibels := d, referenceLevel := y } : Audio.AudioProcessorState).calibrationOffset : ℝ)) : EReal) = ((y - d : ℝ) : EReal) := rfl
    refine ⟨{ s with calibrationOffset := y - d, currentDecibels := d, referenceLevel := y }, ?_, rfl, ?_⟩
    · unfold Audio.calibrate
      simp only [hrun]
      simp [h1, h2, hoff]
    · unfold Audio.getCurrentDecibels
      rw [getCurrentDecibelsRun_active _ data hu1 hu2 hu3]
      rw [hconv, hu0, ← EReal.coe_add]
      rw [show d + (y - d) = y by ring]
      exact clampDb_coe_of_mem y hy1 hy2

/-- C7 witness: the amended calibration theorem applied to a full-scale frame
(every byte 0, amplitude -1, RMS 1, uncalibrated level 94 dB) on a measuring
processor with zero prior offset, calibrated against a 100 dB reference: the
stored offset is 6 and the next reading is 100. -/
theorem calibrate_offset_roundtrip_witness :
    Audio.convertRMSToDecibels (Audio.calculateRMS (List.replicate 4 0)) =
      (((94:ℝ) : ℝ) : EReal) ∧
    ((20:ℝ) ≤ 94 ∧ (94:ℝ) ≤ 140 ∧ (20:ℝ) ≤ 100 ∧ (100:ℝ) ≤ 140) ∧
    (∃ s₂ : Audio.AudioProcessorState,
      Audio.calibrate ⟨true, true, true, 0, 0, 94⟩ true
        (some (List.replicate 4 0)) 100 = some (100 - 94, s₂) ∧
      s₂.calibrationOffset = 100 - 94 ∧
      Audio.getCurrentDecibels s₂ true (some (List.replicate 4 0)) = 100) := by
  have hrms : Audio.calculateRMS (List.replicate 4 0) = 1 := by
    unfold Audio.calculateRMS
    rw [show (List.replicate 4 (0:ℚ)).map
        (fun b => ((b - 128) / 128) * ((b - 128) / 128)) = List.replicate 4 1 by
      rw [List.map_replicate]; norm_num]
    rw [List.sum_replicate]
    norm_num
  have hconv : Audio.convertRMSToDecibels (Audio.calculateRMS (List.replicate 4 0)) =
      (((94:ℝ) : ℝ) : EReal) := by
    rw [hrms]
    unfold Audio.convertRMSToDecibels
    norm_num
  exact ⟨hconv, ⟨by norm_num, by norm_num, by norm_num, by norm_num⟩,
    ((calibrate_offset_roundtrip.2 ⟨true, true, true, 0, 0, 94⟩
      (List.replicate 4 0) 100 94 rfl rfl rfl rfl hconv
      (by norm_num) (by norm_num) (by norm_num) (by norm_num)).2)⟩

/-!
Claim C10.  Idle and failed reads.
-/

/-- C10: whenever the processor is not initialized, not measuring, or has no
analyser, `getCurrentDecibels` returns 0, which is strictly below the 20 dB
floor of the clamp range; and when the per-frame computation throws (the
`catch` arm, modelled by `frame = none`), the call returns the cached
`currentDecibels` value through the coercion `this.currentDecibels || 0`
(which is 0 exactly when no successful reading was cached, since the
constructor initializes the cache to 0). -/
theorem idle_and_failed_reads :
    (∀ (s : Audio.AudioProcessorState) (e : Bool) (f : Option (List ℚ)),
      (s.isInitialized = false ∨ s.isMeasuring = false ∨ s.hasAnalyser = false) →
        Audio.getCurrentDecibels s e f = 0) ∧
    ((0:ℝ) < 20) ∧
    (∀ s : Audio.AudioProcessorState,
      s.isInitialized = true → s.isMeasuring = true → s.hasAnalyser = true →
        Audio.getCurrentDecibels s true none = s.currentDecibels) := by
  refine ⟨?_, by norm_num, ?_⟩
  · intro s e f h
    unfold Audio.getCurrentDecibels Audio.getCurrentDecibelsRun
    rcases h with h | h | h <;> simp [h]
  · intro s h1 h2 h3
    unfold Audio.getCurrentDecibels Audio.getCurrentDecibelsRun
    simp only [h1, h2, h3, Bool.not_true, Bool.or_self, Bool.false_or, if_false]
    by_cases hc : s.currentDecibels = 0 <;> simp [hc]

/-- C10 witness: the idle and catch cases applied to concrete states, one not
measuring (returns 0) and one measuring with cached value 75 whose frame
computation throws (returns 75). -/
theorem idle_and_failed_reads_witness :
    Audio.getCurrentDecibels ⟨true, false, true, 33, 0, 94⟩ true none = 0 ∧
    Audio.getCurrentDecibels ⟨true, true, true, 75, 0, 94⟩ true none = 75 :=
  ⟨idle_and_failed_reads.1 ⟨true, false, true, 33, 0, 94⟩ true none (Or.inr (Or.inl rfl)),
   idle_and_failed_reads.2.2 ⟨true, true, true, 75, 0, 94⟩ rfl rfl rfl⟩



